import Mathlib

/-!
Blog CRUD service: the five route handlers of `src/main.go`.

The handlers are embedded as pure functions

    handler : Env → Store → request → Outcome

where `Store` is the content of the collection "blogs", `Env` fixes what the
database driver does on this request (which driver calls fail, which id the
driver generates) and `Outcome` is either the HTTP response together with the
store afterwards, or a Go panic (nil pointer dereference).

The Go program calls into two libraries whose code is not part of the
repository: the Fiber context (`Status`, `SendStatus`, `JSON`, `BodyParser`)
and the MongoDB driver (`ObjectIDFromHex`, `Find`, `FindOne`, `InsertOne`,
`FindOneAndUpdate`, `DeleteOne`, `Decode`, `All`).  Each call is modelled by a Lean
function of the same name whose doc comment states the library behaviour it stands
for; the handlers themselves follow `main.go` line by line.
-/

namespace BlogApi

/-! ## Storage-native identifiers (`primitive.ObjectID`, a `[12]byte`) -/

/-- Twelve bytes, as in `type ObjectID [12]byte`. -/
abbrev ObjectID := { l : List (Fin 256) // l.length = 12 }

/-- Digits used by `hex.EncodeToString` (lower case). -/
def hextable : List Char := "0123456789abcdef".data

/-- Digit `hextable[n]`. -/
def hexDigit (n : Nat) : Char := hextable.getD n '0'

/-- Go `hex.Encode`: two digits per byte, high nibble first. -/
def hexEncode : List (Fin 256) → List Char
  | [] => []
  | b :: bs => hexDigit (b.val / 16) :: hexDigit (b.val % 16) :: hexEncode bs

/-- Method `ObjectID.Hex`: the 24-digit lower-case hex string of the id. -/
def ObjectID.Hex (o : ObjectID) : String := String.mk (hexEncode o.val)

/-- Go `reverseHexTable`: value of a hex digit of either case, none for any other character. -/
def fromHexChar (c : Char) : Option Nat :=
  let n := c.toNat
  if 48 ≤ n ∧ n ≤ 57 then some (n - 48)
  else if 97 ≤ n ∧ n ≤ 102 then some (n - 97 + 10)
  else if 65 ≤ n ∧ n ≤ 70 then some (n - 65 + 10)
  else none

/-- Go `hex.Decode`: pairs of digits to bytes; fails on a non-digit or an odd length. -/
def hexDecode : List Char → Option (List (Fin 256))
  | p :: q :: rest =>
    match fromHexChar p, fromHexChar q with
    | some a, some b =>
      match hexDecode rest with
      | some bs => some (Fin.ofNat (a * 16 + b) :: bs)
      | none => none
    | _, _ => none
  | [_] => none
  | [] => some []

/-- Driver function `primitive.ObjectIDFromHex`: `len(s) != 24` (a length in bytes) is an
error, and so is any hex decoding error; none stands for the returned error. -/
def ObjectIDFromHex (s : String) : Option ObjectID :=
  if s.utf8ByteSize ≠ 24 then none
  else
    match hexDecode s.data with
    | some bs => if h : bs.length = 12 then some ⟨bs, h⟩ else none
    | none => none

/-- Hex digit in the sense of the specification: 0-9, a-f or A-F. -/
def isHexDigit (c : Char) : Bool :=
  ('0' ≤ c && c ≤ '9') || ('a' ≤ c && c ≤ 'f') || ('A' ≤ c && c ≤ 'F')

/-- The wording of the specification for a well-formed identifier: 24 hex digits. -/
def isHex24 (s : String) : Bool :=
  s.length == 24 && s.data.all isHexDigit

/-! ## Data model -/

/-- Go struct `Blog` (main.go 23-28). -/
structure Blog where
  Id : String
  Title : String
  Body : String
  IsPublished : Bool
deriving DecidableEq, Repr

/-- Value behind `new(Blog)` and `&Blog{}`: every field has its zero value. -/
def Blog.zero : Blog := ⟨"", "", "", false⟩

/-- Value of a JSON object member of an encoded Blog. -/
inductive JsonField
  | str (s : String)
  | bool (b : Bool)
deriving DecidableEq, Repr

/-- JSON object: its members in order. -/
abbrev JsonObject := List (String × JsonField)

/-- JSON documents the handlers can send. -/
inductive Json
  | null
  | string (s : String)
  | object (o : JsonObject)
  | array (os : List JsonObject)
deriving DecidableEq, Repr

/-- Encoding of a Blog by `json.Marshal`, following the struct tags of main.go 24-27:
`id` carries `omitempty` and is left out when empty; the other three members are
always written. -/
def Blog.toJSON (b : Blog) : JsonObject :=
  (if b.Id = "" then [] else [("id", JsonField.str b.Id)]) ++
    [("title", JsonField.str b.Title), ("body", JsonField.str b.Body),
     ("isPublished", JsonField.bool b.IsPublished)]

/-- Encoding of a Go slice of Blog: a nil slice (none) is `null`, any other slice an array. -/
def marshalBlogs : Option (List Blog) → Json
  | none => Json.null
  | some bs => Json.array (bs.map Blog.toJSON)

/-- Member names of a JSON object. -/
def JsonObject.keys (o : JsonObject) : List String := o.map Prod.fst

/-! ## The collection "blogs" -/

/-- Value of `_id` in a stored document: an ObjectID (generated by the driver when the
inserted document has no `_id`) or a string (a non-empty `Blog.Id` would be stored as one). -/
inductive DocId
  | oid (o : ObjectID)
  | str (s : String)
deriving DecidableEq

/-- Stored document: `_id` plus the three entity fields under the driver default keys
`title`, `body`, `ispublished`. -/
structure Doc where
  _id : DocId
  title : String
  body : String
  ispublished : Bool
deriving DecidableEq

/-- Content of the collection, in natural order. -/
abbrev Store := List Doc

/-- The identifiers of the stored documents. -/
def Store.ids (s : Store) : List DocId := s.map Doc._id

/-- The database keeps `_id` unique within a collection. -/
def Store.Valid (s : Store) : Prop := (Store.ids s).Nodup

instance (s : Store) : Decidable (Store.Valid s) := by
  unfold Store.Valid; infer_instance

/-- Errors of a driver call: `mongo.ErrNoDocuments`, or any other error. -/
inductive DriverErr
  | ErrNoDocuments
  | other
deriving DecidableEq

/-- What the environment decides for one request: which driver calls fail with an error
other than ErrNoDocuments, and which ObjectID the driver generates for a document that
is inserted without `_id`. A failing call leaves the collection as it was. -/
structure Env where
  findErr : Bool
  cursorErr : Bool
  findOneErr : Bool
  insertErr : Bool
  updateErr : Bool
  deleteErr : Bool
  newId : ObjectID

/-- Environment in which every driver call succeeds. -/
def Env.ok (newId : ObjectID) : Env := ⟨false, false, false, false, false, false, newId⟩

/-- Decoding of `_id` into the string field `Blog.Id`: the driver string codec writes an
ObjectID as its hex string. -/
def DocId.toString : DocId → String
  | DocId.oid o => o.Hex
  | DocId.str s => s

/-- Decoding of a stored document into a Blog (bson tags of main.go 24-27). -/
def Doc.toBlog (d : Doc) : Blog := ⟨d._id.toString, d.title, d.body, d.ispublished⟩

/-- Driver call `collection.Find(ctx, bson.D{{}})`: a cursor over every document. -/
def Find (env : Env) (s : Store) : Except DriverErr (List Doc) :=
  if env.findErr then Except.error DriverErr.other else Except.ok s

/-- Driver call `cursor.All(ctx, &results)`: the slice is overwritten with the decoded
documents, re-sliced from the slice passed in, so that a nil slice stays nil when the
cursor is empty. The result is the error, or the slice afterwards. -/
def CursorAll (env : Env) (docs : List Doc) (results : Option (List Blog)) :
    Except DriverErr (Option (List Blog)) :=
  if env.cursorErr then Except.error DriverErr.other
  else
    match results, docs with
    | none, [] => Except.ok none
    | _, _ => Except.ok (some (docs.map Doc.toBlog))

/-- Driver call `collection.FindOne(ctx, bson.D{{"_id", id}})`: the first document with
that `_id`, ErrNoDocuments when there is none. -/
def FindOne (env : Env) (s : Store) (id : DocId) : Except DriverErr Doc :=
  if env.findOneErr then Except.error DriverErr.other
  else
    match s.find? (fun d => decide (d._id = id)) with
    | some d => Except.ok d
    | none => Except.error DriverErr.ErrNoDocuments

/-- Method `SingleResult.Decode(v)` with its returned error dropped, as both call sites
do: a found document is decoded into `v`; on an error `v` is left as it was. -/
def Decode (r : Except DriverErr Doc) (v : Blog) : Blog :=
  match r with
  | Except.ok d => d.toBlog
  | Except.error _ => v

/-- Driver call `collection.InsertOne(ctx, &blog)`: `_id` is the field Id unless it is
empty (`omitempty`), in which case the driver generates an ObjectID; a duplicate `_id`
is rejected. The result is the inserted id and the collection afterwards. -/
def InsertOne (env : Env) (s : Store) (b : Blog) : Except DriverErr (DocId × Store) :=
  if env.insertErr then Except.error DriverErr.other
  else
    let id := if b.Id = "" then DocId.oid env.newId else DocId.str b.Id
    if id ∈ Store.ids s then Except.error DriverErr.other
    else Except.ok (id, s ++ [⟨id, b.Title, b.Body, b.IsPublished⟩])

/-- Update document `{"$set": {"title": t, "body": b}}` applied to one document. -/
def setTitleBody (title body : String) (d : Doc) : Doc :=
  { d with title := title, body := body }

/-- Apply `f` to the first document whose `_id` is `id`; none when no document matches. -/
def updateFirst (id : DocId) (f : Doc → Doc) : Store → Option Store
  | [] => none
  | d :: rest =>
    if d._id = id then some (f d :: rest)
    else
      match updateFirst id f rest with
      | some rest2 => some (d :: rest2)
      | none => none

/-- Driver call `collection.FindOneAndUpdate(ctx, filter, update).Err()` with the `$set`
update of main.go 145-151: the error, or the collection afterwards. -/
def FindOneAndUpdate (env : Env) (s : Store) (id : DocId) (title body : String) :
    Except DriverErr Store :=
  if env.updateErr then Except.error DriverErr.other
  else
    match updateFirst id (setTitleBody title body) s with
    | some s2 => Except.ok s2
    | none => Except.error DriverErr.ErrNoDocuments

/-- Driver call `collection.DeleteOne(ctx, filter)`: removes the first matching document;
the result is `DeletedCount` and the collection afterwards. -/
def DeleteOne (env : Env) (s : Store) (id : DocId) : Except DriverErr (Nat × Store) :=
  if env.deleteErr then Except.error DriverErr.other
  else
    match s.find? (fun d => decide (d._id = id)) with
    | some _ => Except.ok (1, s.eraseP (fun d => decide (d._id = id)))
    | none => Except.ok (0, s)

/-! ## The Fiber context -/

/-- Response body: plain text (empty until something is sent) or a JSON document. -/
inductive RespBody
  | text (s : String)
  | json (j : Json)
deriving DecidableEq, Repr

/-- Test `len(Response.Body()) == 0`. -/
def RespBody.isEmpty : RespBody → Bool
  | RespBody.text s => decide (s = "")
  | RespBody.json _ => false

/-- The response under construction in a `*fiber.Ctx`. -/
structure Response where
  status : Nat
  body : RespBody
deriving DecidableEq, Repr

/-- Response of a new context: status 200, empty body. -/
def Response.fresh : Response := ⟨200, RespBody.text ""⟩

/-- Status text of `utils.StatusMessage` for the two codes the handlers pass to SendStatus. -/
def statusMessage : Nat → String
  | 404 => "Not Found"
  | 500 => "Internal Server Error"
  | _ => ""

/-- Method `c.Status(status)`. -/
def Response.Status (c : Response) (status : Nat) : Response :=
  { c with status := status }

/-- Method `c.SendStatus(status)`: sets the status, and the status text as body only when
there is no response body yet. -/
def Response.SendStatus (c : Response) (status : Nat) : Response :=
  let c1 := c.Status status
  if c1.body.isEmpty then { c1 with body := RespBody.text (statusMessage status) } else c1

/-- Method `c.JSON(data)`: the body becomes the encoding of data. -/
def Response.JSON (c : Response) (j : Json) : Response :=
  { c with body := RespBody.json j }

/-- Request body as `c.BodyParser(&blog)` sees it, for `blog` a pointer to a fresh zero
Blog. The argument is a pointer to that pointer, so the JSON decoder may reset the
pointer itself:
* `entity b`: the body decodes without error and the struct then holds `b`
  (members missing from the body keep their zero value);
* `null`: the JSON literal null, which decodes without error by setting the pointer
  to nil;
* `undecodable left`: the parser returns an error (unsupported content type, malformed
  or mistyped JSON, a form body) and the struct holds `left`, the fields stored
  before the error (`Blog.zero` when nothing was decoded). -/
inductive Body
  | entity (b : Blog)
  | null
  | undecodable (left : Blog)
deriving DecidableEq

/-- Method `c.BodyParser(&blog)` after `blog := new(Blog)`: the pointer `blog` afterwards
(none is nil) and whether an error was returned. -/
def BodyParser : Body → Option Blog × Bool
  | Body.entity b => (some b, false)
  | Body.null => (none, false)
  | Body.undecodable left => (some left, true)

/-- Result of running a handler: the response sent and the collection afterwards, or a
panic from dereferencing a nil `*Blog` (no response is written). -/
inductive Outcome
  | response (r : Response) (s : Store)
  | panic (s : Store)
deriving DecidableEq

/-- Status of the response, none when the handler panicked. -/
def Outcome.status : Outcome → Option Nat
  | Outcome.response r _ => some r.status
  | Outcome.panic _ => none

/-- Collection after the handler ran. -/
def Outcome.store : Outcome → Store
  | Outcome.response _ s => s
  | Outcome.panic s => s

/-! ## Route handlers (main.go 61-188) -/

/-- Handler of `GET /api/blogs` (main.go 61-78). -/
def listHandler (env : Env) (s : Store) : Outcome :=
  let c := Response.fresh
  match Find env s with
  | Except.error _ => Outcome.response (c.SendStatus 500) s
  | Except.ok cursor =>
    let blogs : Option (List Blog) := some []
    match CursorAll env cursor blogs with
    | Except.error _ => Outcome.response (c.SendStatus 500) s
    | Except.ok blogs1 => Outcome.response ((c.Status 200).JSON (marshalBlogs blogs1)) s

/-- Handler of `GET /api/blogs/:id` (main.go 80-100). -/
def getHandler (env : Env) (s : Store) (idParam : String) : Outcome :=
  let c := Response.fresh
  match ObjectIDFromHex idParam with
  | none => Outcome.response (c.SendStatus 500) s
  | some blogId =>
    let foundedRecord := FindOne env s (DocId.oid blogId)
    let blog := Decode foundedRecord Blog.zero
    if blog.Id = "" then Outcome.response (c.SendStatus 404) s
    else Outcome.response ((c.Status 200).JSON (Json.object blog.toJSON)) s

/-- Handler of `POST /api/blogs` (main.go 102-126). -/
def createHandler (env : Env) (s : Store) (body : Body) : Outcome :=
  let c := Response.fresh
  match BodyParser body with
  | (_, true) => Outcome.response (c.SendStatus 500) s
  | (none, false) => Outcome.panic s
  | (some blog, false) =>
    let blog1 := { blog with Id := "" }
    let blog2 := { blog1 with IsPublished := false }
    match InsertOne env s blog2 with
    | Except.error _ => Outcome.response (c.SendStatus 500) s
    | Except.ok (insertedID, s1) =>
      let createdRecord := FindOne env s1 insertedID
      let foundBlog := Decode createdRecord Blog.zero
      Outcome.response ((c.Status 201).JSON (Json.object foundBlog.toJSON)) s1

/-- Handler of `PATCH /api/blogs/:id` (main.go 129-165). The SendStatus call after a
failed BodyParser is not followed by a return. -/
def updateHandler (env : Env) (s : Store) (idParam : String) (body : Body) : Outcome :=
  let c := Response.fresh
  match ObjectIDFromHex idParam with
  | none => Outcome.response (c.SendStatus 500) s
  | some blogId =>
    let parsed := BodyParser body
    let c1 := if parsed.2 then c.SendStatus 500 else c
    match parsed.1 with
    | none => Outcome.panic s
    | some blog =>
      match FindOneAndUpdate env s (DocId.oid blogId) blog.Title blog.Body with
      | Except.error DriverErr.ErrNoDocuments => Outcome.response (c1.SendStatus 404) s
      | Except.error DriverErr.other => Outcome.response (c1.SendStatus 500) s
      | Except.ok s1 =>
        let blog1 := { blog with Id := idParam }
        Outcome.response ((c1.Status 200).JSON (Json.object blog1.toJSON)) s1

/-- Handler of `DELETE /api/blogs/:id` (main.go 167-188). -/
def deleteHandler (env : Env) (s : Store) (idParam : String) : Outcome :=
  let c := Response.fresh
  match ObjectIDFromHex idParam with
  | none => Outcome.response (c.SendStatus 500) s
  | some blogId =>
    match DeleteOne env s (DocId.oid blogId) with
    | Except.error _ => Outcome.response (c.SendStatus 500) s
    | Except.ok (deletedCount, s1) =>
      if deletedCount < 1 then Outcome.response (c.SendStatus 404) s1
      else Outcome.response ((c.Status 200).JSON (Json.string "Blog Deleted!")) s1

/-! ## Sample data used to evaluate the handlers -/

/-- ObjectID `0102030405060708090a0bff`. -/
def oidA : ObjectID := ⟨[1, 2, 3, 4, 5, 6, 7, 8, 9, 10, 11, 255], rfl⟩

/-- ObjectID `aaaaaaaaaaaaaaaaaaaaaaaa`. -/
def oidB : ObjectID := ⟨[170, 170, 170, 170, 170, 170, 170, 170, 170, 170, 170, 170], rfl⟩

/-- Stored post with id oidA, already published. -/
def docA : Doc := ⟨DocId.oid oidA, "first", "hello", true⟩

/-- Stored post with id oidB. -/
def docB : Doc := ⟨DocId.oid oidB, "second", "world", false⟩

/-- Environment without driver errors that generates oidB for an insert. -/
def envOk : Env := Env.ok oidB

/-! ## Facts about identifiers -/

theorem utf8Size_hex (c : Char) (h : (fromHexChar c).isSome) : c.utf8Size = 1 := by
  have hn : c.toNat ≤ 127 := by
    unfold fromHexChar at h
    simp only at h
    split_ifs at h <;> first | omega | simp at h
  have : c.val ≤ UInt32.ofNatCore 127 (by decide) := by
    rw [UInt32.le_def]
    exact hn
  simp only [Char.utf8Size]
  rw [if_pos this]

theorem fromHexChar_isSome (c : Char) : (fromHexChar c).isSome = isHexDigit c := by
  have e : ∀ (a b : Char), (decide (a ≤ b)) = decide (a.toNat ≤ b.toNat) := by
    intro a b
    apply decide_eq_decide.mpr
    rw [Char.le_def]
    exact Iff.rfl
  unfold fromHexChar isHexDigit
  simp only [e]
  have h0 : ('0' : Char).toNat = 48 := rfl
  have h9 : ('9' : Char).toNat = 57 := rfl
  have ha : ('a' : Char).toNat = 97 := rfl
  have hf : ('f' : Char).toNat = 102 := rfl
  have hA : ('A' : Char).toNat = 65 := rfl
  have hF : ('F' : Char).toNat = 70 := rfl
  rw [h0, h9, ha, hf, hA, hF]
  split_ifs with h1 h2 h3 <;> simp <;> omega

theorem fromHexChar_hexDigit (n : Fin 16) : fromHexChar (hexDigit n.val) = some n.val := by
  revert n; decide

theorem hexDecode_encode (bs : List (Fin 256)) : hexDecode (hexEncode bs) = some bs := by
  induction bs with
  | nil => rfl
  | cons b rest ih =>
    have h1 := fromHexChar_hexDigit ⟨b.val / 16, by omega⟩
    have h2 := fromHexChar_hexDigit ⟨b.val % 16, by omega⟩
    simp only at h1 h2
    simp only [hexEncode, hexDecode, h1, h2, ih]
    congr 2
    apply Fin.ext
    simp [Fin.ofNat]
    omega

theorem hexEncode_length (bs : List (Fin 256)) : (hexEncode bs).length = 2 * bs.length := by
  induction bs with
  | nil => rfl
  | cons b rest ih => simp [hexEncode, ih]; omega

theorem hexEncode_isSome (bs : List (Fin 256)) : ∀ c ∈ hexEncode bs, (fromHexChar c).isSome := by
  induction bs with
  | nil => simp [hexEncode]
  | cons b rest ih =>
    have h1 := fromHexChar_hexDigit ⟨b.val / 16, by omega⟩
    have h2 := fromHexChar_hexDigit ⟨b.val % 16, by omega⟩
    simp only at h1 h2
    intro c hc
    simp only [hexEncode, List.mem_cons] at hc
    rcases hc with rfl | rfl | hc
    · simp [h1]
    · simp [h2]
    · exact ih c hc

theorem utf8ByteSize_go_hex (cs : List Char) (h : ∀ c ∈ cs, (fromHexChar c).isSome) :
    String.utf8ByteSize.go cs = cs.length := by
  induction cs with
  | nil => rfl
  | cons c rest ih =>
    simp only [String.utf8ByteSize.go, List.length_cons]
    rw [ih (fun x hx => h x (List.mem_cons_of_mem _ hx)), utf8Size_hex c (h c (List.mem_cons_self _ _))]

theorem hexDecode_some (cs : List Char) (bs : List (Fin 256)) (h : hexDecode cs = some bs) :
    cs.length = 2 * bs.length ∧ ∀ c ∈ cs, (fromHexChar c).isSome := by
  induction cs using hexDecode.induct generalizing bs with
  | case1 p q rest a b ha hb bs1 hbs ih =>
    simp only [hexDecode, ha, hb, hbs, Option.some.injEq] at h
    subst h
    obtain ⟨h1, h2⟩ := ih bs1 hbs
    refine ⟨by simp [h1]; omega, ?_⟩
    intro c hc
    simp only [List.mem_cons] at hc
    rcases hc with hc | hc | hc
    · rw [hc, hb]; rfl
    · rw [hc, ha]; rfl
    · exact h2 c hc
  | case2 p q rest a b ha hb hbs =>
    simp [hexDecode, ha, hb, hbs] at h
  | case3 p q rest hno =>
    unfold hexDecode at h
    split at h
    · rename_i a b ha hb
      exact absurd hb (by intro hb2; exact hno a b ha hb2)
    · simp at h
  | case4 c => simp [hexDecode] at h
  | case5 =>
    simp only [hexDecode, Option.some.injEq] at h
    subst h
    simp

theorem hexDecode_of_hex (cs : List Char) (hall : ∀ c ∈ cs, (fromHexChar c).isSome)
    (n : Nat) (hlen : cs.length = 2 * n) : ∃ bs, hexDecode cs = some bs ∧ bs.length = n := by
  induction n generalizing cs with
  | zero =>
    have : cs = [] := List.length_eq_zero.mp (by omega)
    subst this
    exact ⟨[], rfl, rfl⟩
  | succ n ih =>
    match cs, hlen with
    | p :: q :: rest, hlen =>
      obtain ⟨a, ha⟩ := Option.isSome_iff_exists.mp (hall p (by simp))
      obtain ⟨b, hb⟩ := Option.isSome_iff_exists.mp (hall q (by simp))
      obtain ⟨bs, hbs, hl⟩ := ih rest (fun c hc => hall c (by simp [hc])) (by simp at hlen; omega)
      refine ⟨Fin.ofNat (a * 16 + b) :: bs, ?_, by simp [hl]⟩
      simp only [hexDecode, ha, hb, hbs]
    | [_], hlen => simp at hlen; omega
    | [], hlen => simp at hlen

theorem ObjectIDFromHex_isSome (s : String) : (ObjectIDFromHex s).isSome = isHex24 s := by
  by_cases hx : isHex24 s = true
  · rw [hx]
    simp only [isHex24, Bool.and_eq_true, beq_iff_eq, List.all_eq_true] at hx
    obtain ⟨hlen, hall⟩ := hx
    have hall2 : ∀ c ∈ s.data, (fromHexChar c).isSome := by
      intro c hc; rw [fromHexChar_isSome]; exact hall c hc
    have hsz : s.utf8ByteSize = 24 := by
      show String.utf8ByteSize.go s.data = 24
      rw [utf8ByteSize_go_hex _ hall2]; exact hlen
    obtain ⟨bs, hbs, hl⟩ := hexDecode_of_hex s.data hall2 12 hlen
    simp [ObjectIDFromHex, hsz, hbs, hl]
  · have hx2 : isHex24 s = false := by simpa using hx
    rw [hx2]
    cases hres : ObjectIDFromHex s with
    | none => rfl
    | some o =>
      exfalso
      apply hx
      unfold ObjectIDFromHex at hres
      split_ifs at hres with hsz
      split at hres
      · rename_i bs hbs
        split_ifs at hres with hl
        obtain ⟨h1, h2⟩ := hexDecode_some _ _ hbs
        simp only [isHex24, Bool.and_eq_true, beq_iff_eq, List.all_eq_true]
        refine ⟨by show s.data.length = 24; omega, ?_⟩
        intro c hc; rw [← fromHexChar_isSome]; exact h2 c hc
      · simp at hres

theorem ObjectIDFromHex_Hex (o : ObjectID) : ObjectIDFromHex o.Hex = some o := by
  obtain ⟨bs, hlen⟩ := o
  have hsz : (String.mk (hexEncode bs)).utf8ByteSize = 24 := by
    show String.utf8ByteSize.go (hexEncode bs) = 24
    rw [utf8ByteSize_go_hex _ (hexEncode_isSome bs), hexEncode_length, hlen]
  simp only [ObjectIDFromHex, ObjectID.Hex, hsz, hexDecode_encode]
  simp [hlen]

theorem Hex_ne_empty (o : ObjectID) : o.Hex ≠ "" := by
  obtain ⟨bs, hlen⟩ := o
  intro h
  have := congrArg String.length h
  simp [ObjectID.Hex, String.length, hexEncode_length, hlen] at this


theorem ObjectIDFromHex_ne_empty (s : String) (o : ObjectID) (h : ObjectIDFromHex s = some o) :
    s ≠ "" := by
  intro he
  subst he
  have hnone : ObjectIDFromHex "" = none := by decide
  rw [hnone] at h
  cases h

/-! ## Facts about the collection -/

theorem find_none_of_not_mem (s : Store) (id : DocId) (h : id ∉ Store.ids s) :
    s.find? (fun d => decide (d._id = id)) = none := by
  induction s with
  | nil => rfl
  | cons d rest ih =>
    simp only [Store.ids, List.map_cons, List.mem_cons, not_or] at h
    have hne : ¬ d._id = id := fun e => h.1 e.symm
    simp only [List.find?_cons, hne, decide_False]
    exact ih h.2

theorem find_of_valid (s : Store) (d : Doc) (hs : Store.Valid s) (hd : d ∈ s) :
    s.find? (fun x => decide (x._id = d._id)) = some d := by
  induction s with
  | nil => simp at hd
  | cons x rest ih =>
    simp only [Store.Valid, Store.ids, List.map_cons, List.nodup_cons] at hs
    rcases List.mem_cons.mp hd with rfl | hmem
    · simp [List.find?_cons]
    · have hne : ¬ x._id = d._id := by
        intro e
        exact hs.1 (e ▸ List.mem_map_of_mem Doc._id hmem)
      simp only [List.find?_cons, hne, decide_False]
      exact ih hs.2 hmem

theorem updateFirst_none (s : Store) (id : DocId) (f : Doc → Doc) (h : id ∉ Store.ids s) :
    updateFirst id f s = none := by
  induction s with
  | nil => rfl
  | cons d rest ih =>
    simp only [Store.ids, List.map_cons, List.mem_cons, not_or] at h
    have hne : ¬ d._id = id := fun e => h.1 e.symm
    simp only [updateFirst, hne, if_false]
    rw [ih h.2]

theorem map_id_of_not_mem (s : Store) (id : DocId) (f : Doc → Doc) (h : id ∉ Store.ids s) :
    s.map (fun d => if d._id = id then f d else d) = s := by
  induction s with
  | nil => rfl
  | cons d rest ih =>
    simp only [Store.ids, List.map_cons, List.mem_cons, not_or] at h
    have hne : ¬ d._id = id := fun e => h.1 e.symm
    simp only [List.map_cons, hne, if_false]
    rw [ih h.2]

theorem updateFirst_valid (s : Store) (id : DocId) (f : Doc → Doc) (hs : Store.Valid s)
    (h : id ∈ Store.ids s) :
    updateFirst id f s = some (s.map (fun d => if d._id = id then f d else d)) := by
  induction s with
  | nil => simp [Store.ids] at h
  | cons d rest ih =>
    simp only [Store.Valid, Store.ids, List.map_cons, List.nodup_cons] at hs
    by_cases he : d._id = id
    · have hnot : id ∉ Store.ids rest := by
        rw [← he]; exact hs.1
      simp only [updateFirst, he, if_true, List.map_cons]
      rw [map_id_of_not_mem rest id f hnot]
    · have hin : id ∈ Store.ids rest := by
        simp only [Store.ids, List.map_cons, List.mem_cons] at h
        rcases h with h | h
        · exact absurd h.symm he
        · exact h
      simp only [updateFirst, he, if_false, List.map_cons]
      rw [ih hs.2 hin]

theorem ids_map_set (s : Store) (id : DocId) (t b : String) :
    Store.ids (s.map (fun d => if d._id = id then setTitleBody t b d else d)) = Store.ids s := by
  induction s with
  | nil => rfl
  | cons d rest ih =>
    simp only [Store.ids, List.map_cons] at ih ⊢
    rw [ih]
    congr 1
    split_ifs <;> rfl

theorem map_set_idem (s : Store) (id : DocId) (t b : String) :
    (s.map (fun d => if d._id = id then setTitleBody t b d else d)).map
      (fun d => if d._id = id then setTitleBody t b d else d)
    = s.map (fun d => if d._id = id then setTitleBody t b d else d) := by
  induction s with
  | nil => rfl
  | cons d rest ih =>
    simp only [List.map_cons] at ih ⊢
    rw [ih]
    congr 1
    by_cases he : d._id = id
    · simp [he, setTitleBody]
    · simp [he]

theorem eraseP_eq_filter (s : Store) (id : DocId) (hs : Store.Valid s) :
    s.eraseP (fun d => decide (d._id = id)) = s.filter (fun d => decide (d._id ≠ id)) := by
  induction s with
  | nil => rfl
  | cons d rest ih =>
    simp only [Store.Valid, Store.ids, List.map_cons, List.nodup_cons] at hs
    by_cases he : d._id = id
    · have hnot : ∀ x ∈ rest, x._id ≠ id := by
        intro x hx e
        exact hs.1 (he ▸ e ▸ List.mem_map_of_mem Doc._id hx)
      have hfil : rest.filter (fun d => decide (d._id ≠ id)) = rest := by
        apply List.filter_eq_self.mpr
        intro x hx
        simpa using hnot x hx
      rw [List.eraseP_cons_of_pos (by simpa using he), List.filter_cons_of_neg (by simpa using he)]
      exact hfil.symm
    · rw [List.eraseP_cons_of_neg (by simpa using he), List.filter_cons_of_pos (by simpa using he),
        ih hs.2]

theorem filter_length_of_valid (s : Store) (d : Doc) (hs : Store.Valid s) (hd : d ∈ s) :
    (s.filter (fun x => decide (x._id ≠ d._id))).length + 1 = s.length := by
  rw [← eraseP_eq_filter s d._id hs]
  rw [List.length_eraseP_of_mem hd (by simp)]
  have : 0 < s.length := List.length_pos_of_mem hd
  omega

/-! ## Facts about the handlers -/

theorem getHandler_found (env : Env) (s : Store) (idParam : String) (o : ObjectID) (d : Doc)
    (hs : Store.Valid s) (hok : env.findOneErr = false)
    (hid : ObjectIDFromHex idParam = some o) (hd : d ∈ s) (hdid : d._id = DocId.oid o) :
    getHandler env s idParam = Outcome.response ⟨200, RespBody.json (Json.object
      [("id", JsonField.str o.Hex), ("title", JsonField.str d.title),
       ("body", JsonField.str d.body), ("isPublished", JsonField.bool d.ispublished)])⟩ s := by
  have hfind := find_of_valid s d hs hd
  rw [hdid] at hfind
  have hne : ¬ o.Hex = "" := Hex_ne_empty o
  simp only [getHandler, hid, FindOne, hok, hfind, Decode, Doc.toBlog, hdid, DocId.toString, hne,
    if_false, Blog.toJSON, Response.JSON, Response.Status, Response.fresh, Bool.false_eq_true]
  rfl

theorem getHandler_missing (env : Env) (s : Store) (idParam : String) (o : ObjectID)
    (hid : ObjectIDFromHex idParam = some o) (hno : DocId.oid o ∉ Store.ids s) :
    getHandler env s idParam = Outcome.response ⟨404, RespBody.text "Not Found"⟩ s := by
  have hfind := find_none_of_not_mem s (DocId.oid o) hno
  have hdec : ∀ e, (Decode (Except.error e) Blog.zero).Id = "" := fun _ => rfl
  simp only [getHandler, hid, FindOne, hfind]
  split_ifs with h1 h2 h2
  · rfl
  · exact absurd (hdec _) h2
  · rfl
  · exact absurd (hdec _) h2

theorem getHandler_invalid (env : Env) (s : Store) (idParam : String)
    (hid : ObjectIDFromHex idParam = none) :
    getHandler env s idParam
      = Outcome.response ⟨500, RespBody.text "Internal Server Error"⟩ s := by
  simp only [getHandler, hid]
  rfl

/-- C2: get-by-id answers 500 exactly on identifiers that are not 24 hex digits, 404 on a
well-formed identifier that no stored record carries, and otherwise 200 with the stored
record (id, title, body, isPublished) as body; the collection is unchanged in all three
cases. The find-one call is taken to succeed (`hok`) and `_id` to be unique (`hs`). -/
theorem get_by_id_contract (env : Env) (s : Store) (idParam : String)
    (hs : Store.Valid s) (hok : env.findOneErr = false) :
    ((ObjectIDFromHex idParam).isSome = isHex24 idParam) ∧
    (isHex24 idParam = false →
      getHandler env s idParam
        = Outcome.response ⟨500, RespBody.text "Internal Server Error"⟩ s) ∧
    (∀ o, ObjectIDFromHex idParam = some o → DocId.oid o ∉ Store.ids s →
      getHandler env s idParam = Outcome.response ⟨404, RespBody.text "Not Found"⟩ s) ∧
    (∀ o d, ObjectIDFromHex idParam = some o → d ∈ s → d._id = DocId.oid o →
      getHandler env s idParam = Outcome.response ⟨200, RespBody.json (Json.object
        [("id", JsonField.str o.Hex), ("title", JsonField.str d.title),
         ("body", JsonField.str d.body), ("isPublished", JsonField.bool d.ispublished)])⟩ s) := by
  refine ⟨ObjectIDFromHex_isSome idParam, ?_, ?_, ?_⟩
  · intro hbad
    have hsome := ObjectIDFromHex_isSome idParam
    rw [hbad] at hsome
    have hnone : ObjectIDFromHex idParam = none := by
      cases h : ObjectIDFromHex idParam with
      | none => rfl
      | some o => rw [h] at hsome; simp at hsome
    exact getHandler_invalid env s idParam hnone
  · intro o hid hno
    exact getHandler_missing env s idParam o hid hno
  · intro o d hid hd hdid
    exact getHandler_found env s idParam o d hs hok hid hd hdid

theorem get_by_id_contract_witness :
    getHandler envOk [docA, docB] "0102030405060708090A0BFF"
      = Outcome.response ⟨200, RespBody.json (Json.object
          [("id", JsonField.str "0102030405060708090a0bff"), ("title", JsonField.str "first"),
           ("body", JsonField.str "hello"), ("isPublished", JsonField.bool true)])⟩ [docA, docB]
    ∧ getHandler envOk [docA, docB] "0102030405060708090a0bfe"
      = Outcome.response ⟨404, RespBody.text "Not Found"⟩ [docA, docB]
    ∧ getHandler envOk [docA, docB] "xyz"
      = Outcome.response ⟨500, RespBody.text "Internal Server Error"⟩ [docA, docB] :=
  ⟨(get_by_id_contract envOk [docA, docB] "0102030405060708090A0BFF" (by decide) rfl).2.2.2
      oidA docA (by decide) (by decide) (by decide),
   (get_by_id_contract envOk [docA, docB] "0102030405060708090a0bfe" (by decide) rfl).2.2.1
      ⟨[1, 2, 3, 4, 5, 6, 7, 8, 9, 10, 11, 254], rfl⟩ (by decide) (by decide),
   (get_by_id_contract envOk [docA, docB] "xyz" (by decide) rfl).2.1 (by decide)⟩

theorem deleteHandler_found (env : Env) (s : Store) (idParam : String) (o : ObjectID) (d : Doc)
    (hs : Store.Valid s) (hok : env.deleteErr = false)
    (hid : ObjectIDFromHex idParam = some o) (hd : d ∈ s) (hdid : d._id = DocId.oid o) :
    deleteHandler env s idParam
      = Outcome.response ⟨200, RespBody.json (Json.string "Blog Deleted!")⟩
          (s.filter (fun x => decide (x._id ≠ DocId.oid o))) := by
  have hfind := find_of_valid s d hs hd
  rw [hdid] at hfind
  simp only [deleteHandler, hid, DeleteOne, hok, hfind, eraseP_eq_filter s (DocId.oid o) hs,
    Bool.false_eq_true, if_false]
  rfl

theorem deleteHandler_missing (env : Env) (s : Store) (idParam : String) (o : ObjectID)
    (hok : env.deleteErr = false)
    (hid : ObjectIDFromHex idParam = some o) (hno : DocId.oid o ∉ Store.ids s) :
    deleteHandler env s idParam = Outcome.response ⟨404, RespBody.text "Not Found"⟩ s := by
  have hfind := find_none_of_not_mem s (DocId.oid o) hno
  simp only [deleteHandler, hid, DeleteOne, hok, hfind, Bool.false_eq_true, if_false]
  rfl

theorem not_mem_ids_filter (s : Store) (id : DocId) :
    id ∉ Store.ids (s.filter (fun x => decide (x._id ≠ id))) := by
  intro h
  simp only [Store.ids, List.mem_map, List.mem_filter] at h
  obtain ⟨x, ⟨_, hx⟩, he⟩ := h
  simp at hx
  exact hx he

/-- C5: on a well-formed identifier of a stored record, delete answers 200 and removes
that record and nothing else (the collection afterwards is the old one without the
documents of that id, and is exactly one document shorter), and a get on the same
identifier in the resulting collection answers 404. The delete call is taken to succeed
and `_id` to be unique. -/
theorem delete_then_get (env env2 : Env) (s : Store) (idParam : String) (o : ObjectID) (d : Doc)
    (hs : Store.Valid s) (hok : env.deleteErr = false)
    (hid : ObjectIDFromHex idParam = some o) (hd : d ∈ s) (hdid : d._id = DocId.oid o) :
    deleteHandler env s idParam
      = Outcome.response ⟨200, RespBody.json (Json.string "Blog Deleted!")⟩
          (s.filter (fun x => decide (x._id ≠ DocId.oid o)))
    ∧ (s.filter (fun x => decide (x._id ≠ DocId.oid o))).length + 1 = s.length
    ∧ (∀ x, x ∈ s.filter (fun x => decide (x._id ≠ DocId.oid o)) ↔ x ∈ s ∧ x ≠ d)
    ∧ getHandler env2 (deleteHandler env s idParam).store idParam
      = Outcome.response ⟨404, RespBody.text "Not Found"⟩
          (s.filter (fun x => decide (x._id ≠ DocId.oid o))) := by
  have hdel := deleteHandler_found env s idParam o d hs hok hid hd hdid
  refine ⟨hdel, ?_, ?_, ?_⟩
  · have := filter_length_of_valid s d hs hd
    rw [hdid] at this
    exact this
  · intro x
    simp only [List.mem_filter, ne_eq, decide_not, Bool.not_eq_true', decide_eq_false_iff_not]
    constructor
    · rintro ⟨hx, hne⟩
      exact ⟨hx, fun e => hne (e ▸ hdid)⟩
    · rintro ⟨hx, hne⟩
      refine ⟨hx, fun e => hne ?_⟩
      have h1 := find_of_valid s x hs hx
      have h2 := find_of_valid s d hs hd
      rw [e] at h1
      rw [hdid] at h2
      rw [h1] at h2
      exact Option.some.inj h2
  · rw [hdel]
    exact getHandler_missing env2 _ idParam o hid (not_mem_ids_filter s (DocId.oid o))

theorem delete_then_get_witness :
    deleteHandler envOk [docA, docB] "0102030405060708090a0bff"
      = Outcome.response ⟨200, RespBody.json (Json.string "Blog Deleted!")⟩ [docB]
    ∧ getHandler envOk [docB] "0102030405060708090a0bff"
      = Outcome.response ⟨404, RespBody.text "Not Found"⟩ [docB] :=
  have h := delete_then_get envOk envOk [docA, docB] "0102030405060708090a0bff" oidA docA
    (by decide) rfl (by decide) (by decide) (by decide)
  ⟨h.1, by
    have h4 := h.2.2.2
    rw [h.1] at h4
    exact h4⟩

/-- C6: when the query succeeds, list answers 200 with a JSON array that holds, in
order, one object per stored record, with that record's own members: id (the hex
string of an ObjectID, or a string id itself, left out only when it is the empty
string), title, body and isPublished. The array has as many elements as the collection
has records; on the empty collection the body is the empty array and not null; the
collection is unchanged. -/
theorem list_contract (env : Env) (s : Store)
    (hfind : env.findErr = false) (hall : env.cursorErr = false) :
    listHandler env s
      = Outcome.response
          ⟨200, RespBody.json (Json.array (s.map (fun d =>
            (match d._id with
              | DocId.oid o => [("id", JsonField.str o.Hex)]
              | DocId.str t => if t = "" then [] else [("id", JsonField.str t)])
            ++ [("title", JsonField.str d.title), ("body", JsonField.str d.body),
                ("isPublished", JsonField.bool d.ispublished)])))⟩ s
    ∧ listHandler env s
      = Outcome.response
          ⟨200, RespBody.json (Json.array (s.map (fun d => d.toBlog.toJSON)))⟩ s
    ∧ (∀ os, listHandler env s = Outcome.response ⟨200, RespBody.json (Json.array os)⟩ s →
        os.length = s.length)
    ∧ listHandler env [] = Outcome.response ⟨200, RespBody.json (Json.array [])⟩ []
    ∧ listHandler env s ≠ Outcome.response ⟨200, RespBody.json Json.null⟩ s := by
  have key : ∀ t : Store, listHandler env t
      = Outcome.response
          ⟨200, RespBody.json (Json.array (t.map (fun d => d.toBlog.toJSON)))⟩ t := by
    intro t
    simp only [listHandler, Find, hfind, CursorAll, hall, Bool.false_eq_true, if_false,
      marshalBlogs, List.map_map]
    rfl
  refine ⟨?_, key s, ?_, key [], ?_⟩
  · rw [key s]
    congr 4
    apply List.map_congr_left
    intro d _
    obtain ⟨id, t, b, p⟩ := d
    cases id with
    | oid o =>
      have hne : ¬ o.Hex = "" := Hex_ne_empty o
      simp only [Doc.toBlog, Blog.toJSON, DocId.toString, hne, if_false]
    | str u =>
      simp only [Doc.toBlog, Blog.toJSON, DocId.toString]
  · intro os h
    rw [key s] at h
    injection h with h1 _
    injection h1 with _ h2
    injection h2 with h3
    injection h3 with h4
    rw [← h4, List.length_map]
  · rw [key s]
    intro h
    injection h with h1 _
    injection h1 with _ h2
    injection h2 with h3
    cases h3

theorem list_contract_witness :
    listHandler envOk [docA, docB, ⟨DocId.str "post-3", "third", "again", true⟩]
      = Outcome.response ⟨200, RespBody.json (Json.array
          [[("id", JsonField.str "0102030405060708090a0bff"), ("title", JsonField.str "first"),
            ("body", JsonField.str "hello"), ("isPublished", JsonField.bool true)],
           [("id", JsonField.str "aaaaaaaaaaaaaaaaaaaaaaaa"), ("title", JsonField.str "second"),
            ("body", JsonField.str "world"), ("isPublished", JsonField.bool false)],
           [("id", JsonField.str "post-3"), ("title", JsonField.str "third"),
            ("body", JsonField.str "again"), ("isPublished", JsonField.bool true)]])⟩
          [docA, docB, ⟨DocId.str "post-3", "third", "again", true⟩]
    ∧ listHandler envOk [] = Outcome.response ⟨200, RespBody.json (Json.array [])⟩ [] :=
  ⟨(list_contract envOk [docA, docB, ⟨DocId.str "post-3", "third", "again", true⟩] rfl rfl).1,
   (list_contract envOk [] rfl rfl).2.2.2.1⟩

theorem updateHandler_fault (env : Env) (s : Store) (idParam : String) (o : ObjectID)
    (body : Body) (b : Blog) (hid : ObjectIDFromHex idParam = some o)
    (hb : (BodyParser body).1 = some b) (herr : env.updateErr = true) :
    updateHandler env s idParam body
      = Outcome.response ⟨500, RespBody.text "Internal Server Error"⟩ s := by
  simp only [updateHandler, hid, hb, FindOneAndUpdate, herr, if_true]
  split_ifs <;> rfl

theorem updateHandler_missing (env : Env) (s : Store) (idParam : String) (o : ObjectID)
    (body : Body) (b : Blog) (hid : ObjectIDFromHex idParam = some o)
    (hb : (BodyParser body).1 = some b) (hok : env.updateErr = false)
    (hno : DocId.oid o ∉ Store.ids s) :
    updateHandler env s idParam body
      = Outcome.response ⟨404, RespBody.text
          (if (BodyParser body).2 = true then "Internal Server Error" else "Not Found")⟩ s := by
  simp only [updateHandler, hid, hb, FindOneAndUpdate, hok, updateFirst_none s _ _ hno,
    Bool.false_eq_true, if_false]
  split_ifs <;> rfl

theorem updateHandler_found (env : Env) (s : Store) (idParam : String) (o : ObjectID)
    (body : Body) (b : Blog) (hid : ObjectIDFromHex idParam = some o)
    (hb : (BodyParser body).1 = some b) (hok : env.updateErr = false)
    (hs : Store.Valid s) (hin : DocId.oid o ∈ Store.ids s) :
    updateHandler env s idParam body
      = Outcome.response ⟨200, RespBody.json (Json.object
          [("id", JsonField.str idParam), ("title", JsonField.str b.Title),
           ("body", JsonField.str b.Body), ("isPublished", JsonField.bool b.IsPublished)])⟩
          (s.map (fun d => if d._id = DocId.oid o then setTitleBody b.Title b.Body d else d)) := by
  have hne : ¬ idParam = "" := ObjectIDFromHex_ne_empty idParam o hid
  simp only [updateHandler, hid, hb, FindOneAndUpdate, hok, updateFirst_valid s _ _ hs hin,
    Bool.false_eq_true, if_false, Blog.toJSON, hne]
  split_ifs <;> rfl

theorem updateHandler_null (env : Env) (s : Store) (idParam : String) (o : ObjectID)
    (hid : ObjectIDFromHex idParam = some o) :
    updateHandler env s idParam Body.null = Outcome.panic s := by
  simp only [updateHandler, hid, BodyParser]

/-- C9: with a well-formed identifier and a body whose decode fails, update does not
stop at the decode step: the outcome is decided by the storage call alone. A storage
error gives 500, no matching record gives 404 (collection unchanged in both), and a
matching record gives 200 after the title and body left behind by the failed decode
were written to that record (empty strings when nothing was decoded). -/
theorem update_decode_failure_not_propagated (env : Env) (s : Store) (idParam : String)
    (o : ObjectID) (left : Blog) (hid : ObjectIDFromHex idParam = some o) :
    (BodyParser (Body.undecodable left)).2 = true
    ∧ (env.updateErr = true →
        updateHandler env s idParam (Body.undecodable left)
          = Outcome.response ⟨500, RespBody.text "Internal Server Error"⟩ s)
    ∧ (env.updateErr = false → DocId.oid o ∉ Store.ids s →
        updateHandler env s idParam (Body.undecodable left)
          = Outcome.response ⟨404, RespBody.text "Internal Server Error"⟩ s)
    ∧ (env.updateErr = false → Store.Valid s → DocId.oid o ∈ Store.ids s →
        updateHandler env s idParam (Body.undecodable left)
          = Outcome.response ⟨200, RespBody.json (Json.object
              [("id", JsonField.str idParam), ("title", JsonField.str left.Title),
               ("body", JsonField.str left.Body),
               ("isPublished", JsonField.bool left.IsPublished)])⟩
              (s.map (fun d =>
                if d._id = DocId.oid o then setTitleBody left.Title left.Body d else d))) := by
  refine ⟨rfl, ?_, ?_, ?_⟩
  · intro herr
    exact updateHandler_fault env s idParam o _ left hid rfl herr
  · intro hok hno
    exact updateHandler_missing env s idParam o _ left hid rfl hok hno
  · intro hok hs hin
    exact updateHandler_found env s idParam o _ left hid rfl hok hs hin

theorem update_decode_failure_not_propagated_witness :
    updateHandler envOk [docA, docB] "0102030405060708090a0bff" (Body.undecodable Blog.zero)
      = Outcome.response ⟨200, RespBody.json (Json.object
          [("id", JsonField.str "0102030405060708090a0bff"), ("title", JsonField.str ""),
           ("body", JsonField.str ""), ("isPublished", JsonField.bool false)])⟩
          [⟨DocId.oid oidA, "", "", true⟩, docB]
    ∧ updateHandler envOk [docB] "0102030405060708090a0bff" (Body.undecodable Blog.zero)
      = Outcome.response ⟨404, RespBody.text "Internal Server Error"⟩ [docB] :=
  ⟨(update_decode_failure_not_propagated envOk [docA, docB] "0102030405060708090a0bff" oidA
      Blog.zero (by decide)).2.2.2 rfl (by decide) (by decide),
   (update_decode_failure_not_propagated envOk [docB] "0102030405060708090a0bff" oidA
      Blog.zero (by decide)).2.2.1 rfl (by decide)⟩

theorem status_SendStatus (c : Response) (n : Nat) : (c.SendStatus n).status = n := by
  unfold Response.SendStatus
  simp only [Response.Status]
  split_ifs <;> rfl

/-- C7, as stated, fails: a successful update of docB answers 200 with a JSON object of
four members, id, title, body and isPublished; the last one is the value sent in the
request body (true) while the stored record keeps false. -/
theorem update_response_members_counterexample :
    updateHandler envOk [docB] "AAAAAAAAAAAAAAAAAAAAAAAA" (Body.entity ⟨"", "t", "b", true⟩)
      = Outcome.response ⟨200, RespBody.json (Json.object
          [("id", JsonField.str "AAAAAAAAAAAAAAAAAAAAAAAA"), ("title", JsonField.str "t"),
           ("body", JsonField.str "b"), ("isPublished", JsonField.bool true)])⟩
          [⟨DocId.oid oidB, "t", "b", false⟩]
    ∧ JsonObject.keys
          [("id", JsonField.str "AAAAAAAAAAAAAAAAAAAAAAAA"), ("title", JsonField.str "t"),
           ("body", JsonField.str "b"), ("isPublished", JsonField.bool true)]
        ≠ ["id", "title", "body"] := by
  decide

/-- C7 amended: whenever update answers 200, the body is the JSON object with the four
members id, title, body and isPublished, where id is the path identifier exactly as
given and title, body and isPublished are the values the body parser left in the
request struct (not a re-read of the stored record). -/
theorem update_success_response (env : Env) (s s1 : Store) (idParam : String) (body : Body)
    (r : Response) (hrun : updateHandler env s idParam body = Outcome.response r s1)
    (h200 : r.status = 200) :
    ∃ b, (BodyParser body).1 = some b
      ∧ r.body = RespBody.json (Json.object
          [("id", JsonField.str idParam), ("title", JsonField.str b.Title),
           ("body", JsonField.str b.Body), ("isPublished", JsonField.bool b.IsPublished)])
      ∧ JsonObject.keys
          [("id", JsonField.str idParam), ("title", JsonField.str b.Title),
           ("body", JsonField.str b.Body), ("isPublished", JsonField.bool b.IsPublished)]
        = ["id", "title", "body", "isPublished"] := by
  cases hid : ObjectIDFromHex idParam with
  | none =>
    simp only [updateHandler, hid] at hrun
    injection hrun with hr _
    rw [← hr, status_SendStatus] at h200
    exact absurd h200 (by decide)
  | some o =>
    have hne : ¬ idParam = "" := ObjectIDFromHex_ne_empty idParam o hid
    cases hb : (BodyParser body).1 with
    | none =>
      simp only [updateHandler, hid, hb] at hrun
      cases hrun
    | some b =>
      refine ⟨b, rfl, ?_, rfl⟩
      simp only [updateHandler, hid, hb] at hrun
      cases hu : FindOneAndUpdate env s (DocId.oid o) b.Title b.Body with
      | error e =>
        rw [hu] at hrun
        cases e <;>
          · simp only at hrun
            injection hrun with hr _
            rw [← hr, status_SendStatus] at h200
            exact absurd h200 (by decide)
      | ok s2 =>
        rw [hu] at hrun
        simp only at hrun
        injection hrun with hr _
        rw [← hr]
        simp only [Response.JSON, Blog.toJSON, hne, if_false]
        rfl

theorem update_success_response_witness :
    ∃ b, (BodyParser (Body.entity ⟨"", "t", "b", true⟩)).1 = some b
      ∧ (Response.mk 200 (RespBody.json (Json.object
          [("id", JsonField.str "AAAAAAAAAAAAAAAAAAAAAAAA"), ("title", JsonField.str "t"),
           ("body", JsonField.str "b"), ("isPublished", JsonField.bool true)]))).body
        = RespBody.json (Json.object
          [("id", JsonField.str "AAAAAAAAAAAAAAAAAAAAAAAA"), ("title", JsonField.str b.Title),
           ("body", JsonField.str b.Body), ("isPublished", JsonField.bool b.IsPublished)])
      ∧ JsonObject.keys
          [("id", JsonField.str "AAAAAAAAAAAAAAAAAAAAAAAA"), ("title", JsonField.str b.Title),
           ("body", JsonField.str b.Body), ("isPublished", JsonField.bool b.IsPublished)]
        = ["id", "title", "body", "isPublished"] :=
  update_success_response envOk [docB] [⟨DocId.oid oidB, "t", "b", false⟩]
    "AAAAAAAAAAAAAAAAAAAAAAAA" (Body.entity ⟨"", "t", "b", true⟩) _ (by decide) rfl

/-! ## Bodies that decode to an entity, and driver errors

The statements below record what the handlers do on every body other than the JSON
literal null, and on every driver error other than a failing find-one. -/

theorem find_append_new (s : Store) (d : Doc) (hfresh : d._id ∉ Store.ids s) :
    (s ++ [d]).find? (fun x => decide (x._id = d._id)) = some d := by
  rw [List.find?_append, find_none_of_not_mem s d._id hfresh]
  simp [List.find?_cons]

theorem createHandler_entity (env : Env) (s : Store) (b : Blog)
    (hins : env.insertErr = false) (hfind : env.findOneErr = false)
    (hfresh : DocId.oid env.newId ∉ Store.ids s) :
    createHandler env s (Body.entity b)
      = Outcome.response ⟨201, RespBody.json (Json.object
          [("id", JsonField.str env.newId.Hex), ("title", JsonField.str b.Title),
           ("body", JsonField.str b.Body), ("isPublished", JsonField.bool false)])⟩
          (s ++ [⟨DocId.oid env.newId, b.Title, b.Body, false⟩]) := by
  have hne : ¬ env.newId.Hex = "" := Hex_ne_empty env.newId
  have hf := find_append_new s ⟨DocId.oid env.newId, b.Title, b.Body, false⟩ hfresh
  simp only at hf
  simp only [createHandler, BodyParser, InsertOne, hins, hfresh, FindOne, hfind, hf, Decode,
    Doc.toBlog, DocId.toString, Blog.toJSON, hne, if_true, if_false, Bool.false_eq_true]
  rfl

theorem createHandler_inserted_doc (env : Env) (s : Store) (b : Blog) :
    InsertOne { env with insertErr := false } s { b with Id := "", IsPublished := false }
      = if DocId.oid env.newId ∈ Store.ids s then Except.error DriverErr.other
        else Except.ok (DocId.oid env.newId,
          s ++ [⟨DocId.oid env.newId, b.Title, b.Body, false⟩]) := by
  simp [InsertOne]

theorem updateHandler_entity_idempotent (env : Env) (s : Store) (idParam : String)
    (o : ObjectID) (b : Blog) (hid : ObjectIDFromHex idParam = some o)
    (hok : env.updateErr = false) (hs : Store.Valid s) (hin : DocId.oid o ∈ Store.ids s) :
    updateHandler env (updateHandler env s idParam (Body.entity b)).store idParam (Body.entity b)
      = updateHandler env s idParam (Body.entity b) := by
  have h1 := updateHandler_found env s idParam o (Body.entity b) b hid rfl hok hs hin
  have hs2 : Store.Valid
      (s.map (fun d => if d._id = DocId.oid o then setTitleBody b.Title b.Body d else d)) := by
    unfold Store.Valid
    rw [ids_map_set]
    exact hs
  have hin2 : DocId.oid o ∈ Store.ids
      (s.map (fun d => if d._id = DocId.oid o then setTitleBody b.Title b.Body d else d)) := by
    rw [ids_map_set]
    exact hin
  have h2 := updateHandler_found env _ idParam o (Body.entity b) b hid rfl hok hs2 hin2
  rw [h1]
  simp only [Outcome.store]
  rw [h2, map_set_idem]

theorem storage_error_surfaced (env : Env) (s : Store) (o : ObjectID) (b : Blog) :
    listHandler { env with findErr := true } s
      = Outcome.response ⟨500, RespBody.text "Internal Server Error"⟩ s
    ∧ listHandler { env with cursorErr := true } s
      = Outcome.response ⟨500, RespBody.text "Internal Server Error"⟩ s
    ∧ createHandler { env with insertErr := true } s (Body.entity b)
      = Outcome.response ⟨500, RespBody.text "Internal Server Error"⟩ s
    ∧ updateHandler { env with updateErr := true } s o.Hex (Body.entity b)
      = Outcome.response ⟨500, RespBody.text "Internal Server Error"⟩ s
    ∧ deleteHandler { env with deleteErr := true } s o.Hex
      = Outcome.response ⟨500, RespBody.text "Internal Server Error"⟩ s := by
  refine ⟨?_, ?_, ?_, ?_, ?_⟩
  · simp only [listHandler, Find, if_true]
    rfl
  · simp only [listHandler, Find, CursorAll, if_true]
    split_ifs <;> rfl
  · simp only [createHandler, BodyParser, InsertOne, if_true]
    rfl
  · exact updateHandler_fault _ s o.Hex o _ b (ObjectIDFromHex_Hex o) rfl rfl
  · simp only [deleteHandler, ObjectIDFromHex_Hex, DeleteOne, if_true]
    rfl

theorem createHandler_responds (env : Env) (s : Store) (body : Body) (h : body ≠ Body.null) :
    ∃ r s1, createHandler env s body = Outcome.response r s1 := by
  cases body with
  | null => exact absurd rfl h
  | undecodable left => exact ⟨_, _, rfl⟩
  | entity b =>
    simp only [createHandler, BodyParser]
    cases hi : InsertOne env s { b with Id := "", IsPublished := false } with
    | error e => exact ⟨_, _, rfl⟩
    | ok p => exact ⟨_, _, rfl⟩

theorem updateHandler_responds (env : Env) (s : Store) (idParam : String) (body : Body)
    (h : body ≠ Body.null) :
    ∃ r s1, updateHandler env s idParam body = Outcome.response r s1 := by
  cases hid : ObjectIDFromHex idParam with
  | none => exact ⟨Response.fresh.SendStatus 500, s, by simp only [updateHandler, hid]⟩
  | some o =>
    have hb : ∃ b, (BodyParser body).1 = some b := by
      cases body with
      | null => exact absurd rfl h
      | undecodable left => exact ⟨left, rfl⟩
      | entity b => exact ⟨b, rfl⟩
    obtain ⟨b, hb⟩ := hb
    simp only [updateHandler, hid, hb]
    cases hu : FindOneAndUpdate env s (DocId.oid o) b.Title b.Body with
    | error e => cases e <;> exact ⟨_, _, rfl⟩
    | ok s2 => exact ⟨_, _, rfl⟩

theorem nil_slice_encodes_null (env : Env) (hall : env.cursorErr = false) :
    CursorAll env [] none = Except.ok none ∧ marshalBlogs none = Json.null
    ∧ CursorAll env [] (some []) = Except.ok (some [])
    ∧ marshalBlogs (some []) = Json.array [] := by
  simp [CursorAll, hall, marshalBlogs]

/-- C10 fails on the code: the JSON literal null is decoded without error and leaves
the pointer `blog` nil, so create panics at `blog.Id = ""` and update (on any well-formed
identifier) panics at `blog.Title`; neither writes a response, whatever the collection
and the driver do. -/
theorem null_body_nil_dereference (env : Env) (s : Store) (o : ObjectID) :
    BodyParser Body.null = (none, false)
    ∧ createHandler env s Body.null = Outcome.panic s
    ∧ updateHandler env s o.Hex Body.null = Outcome.panic s
    ∧ (createHandler env s Body.null).status = none
    ∧ (updateHandler env s o.Hex Body.null).status = none := by
  have hc : createHandler env s Body.null = Outcome.panic s := rfl
  have hu := updateHandler_null env s o.Hex o (ObjectIDFromHex_Hex o)
  refine ⟨rfl, hc, hu, ?_, ?_⟩
  · rw [hc]; rfl
  · rw [hu]; rfl

/-- C1 fails on the code at the body null: the body parser reports no error, yet create
sends no 201 and no entity; the handler panics and the collection is left as it was. -/
theorem create_null_body_no_response :
    (BodyParser Body.null).2 = false
    ∧ createHandler envOk [docA] Body.null = Outcome.panic [docA]
    ∧ (createHandler envOk [docA] Body.null).status = none := by
  decide

/-- C3 fails on the code at the body null: on the identifier of the stored record docA
the body parser reports no error, yet update panics; nothing is written and no response
is sent. -/
theorem update_null_body_on_stored_record :
    (BodyParser Body.null).2 = false
    ∧ DocId.oid oidA ∈ Store.ids [docA, docB]
    ∧ ObjectIDFromHex "0102030405060708090a0bff" = some oidA
    ∧ updateHandler envOk [docA, docB] "0102030405060708090a0bff" Body.null
        = Outcome.panic [docA, docB] := by
  decide

/-- C4 fails on the code at the body null: on a well-formed identifier that matches no
stored record, update panics instead of answering 404. -/
theorem update_null_body_on_missing_record :
    DocId.oid oidA ∉ Store.ids [docB]
    ∧ ObjectIDFromHex "0102030405060708090a0bff" = some oidA
    ∧ updateHandler envOk [docB] "0102030405060708090a0bff" Body.null = Outcome.panic [docB]
    ∧ (updateHandler envOk [docB] "0102030405060708090a0bff" Body.null).status = none := by
  decide

/-- C8 fails on the code: when the find-one call fails with an error other than
ErrNoDocuments, get-by-id answers 404, and when the re-fetch after a successful insert
fails, create answers 201 with a zero entity; neither answers 500. -/
theorem find_one_error_not_surfaced (env : Env) (s : Store) (o : ObjectID) :
    FindOne { env with findOneErr := true } s (DocId.oid o) = Except.error DriverErr.other
    ∧ getHandler { env with findOneErr := true } s o.Hex
        = Outcome.response ⟨404, RespBody.text "Not Found"⟩ s
    ∧ createHandler { envOk with findOneErr := true } [docA] (Body.entity ⟨"", "t", "b", false⟩)
        = Outcome.response ⟨201, RespBody.json (Json.object
            [("title", JsonField.str ""), ("body", JsonField.str ""),
             ("isPublished", JsonField.bool false)])⟩
            [docA, ⟨DocId.oid oidB, "t", "b", false⟩] := by
  refine ⟨rfl, ?_, by decide⟩
  simp only [getHandler, ObjectIDFromHex_Hex, FindOne, if_true]
  rfl

end BlogApi
